import Mathlib

/-!
Verification of the LocatorPro self-healing locator engine.

The definitions below are a shallow embedding of the strategy-generation,
validation, selection and scoring code of `LocatorEngine`
(src/locator-engine.ts) and of the strategy-truncation, composite-locator
and debug-introspection code of `SmartLocator` (src/smart-locator.ts).

Modelling conventions:
* JS numbers appearing in reliability priors and confidence scores are
  modelled as exact rationals (`ℚ`); priorities as integers.
* Optional JS fields are `Option`; JS truthiness on strings (undefined and
  `""` are falsy) is made explicit through `truthyStr`.
* The external DOM/browser collaborator is abstracted as a `Doc`: a
  match-count oracle per (strategy kind, selector text), where `none`
  models a query that throws (the engine catches such errors).
* JS `Array.prototype.sort` with comparator `a.priority - b.priority` is a
  stable sort by priority, modelled by `List.insertionSort` on `≤`.
* Attribute-bag and role-table lookups are modelled as lookups in the
  explicit tables written in the source (prototype-chain quirks of JS
  object indexing are out of scope).
-/

namespace LocatorPro

/-- The `type` field of a `LocatorStrategy`
(`'id' | 'data-testid' | 'aria-label' | 'text' | 'role' | 'css' | 'xpath'`). -/
inductive StrategyType where
  | id
  | dataTestid
  | ariaLabel
  | text
  | role
  | css
  | xpath
deriving DecidableEq

/-- `LocatorStrategy` from types.ts: a candidate selector with metadata.
`isUnique` and `reliability` are the optional fields of the source. -/
structure LocatorStrategy where
  type : StrategyType
  selector : String
  priority : Int
  description : String
  isUnique : Option Bool := none
  reliability : Option ℚ := none
deriving DecidableEq

/-- Bounding geometry of a captured element. -/
structure Position where
  x : ℚ
  y : ℚ
  width : ℚ
  height : ℚ
deriving DecidableEq

/-- `ElementData` from types.ts: the immutable snapshot of one element.
The attribute bag is an ordered name→value list. -/
structure ElementData where
  tagName : String
  id : Option String := none
  className : Option String := none
  textContent : Option String := none
  attributes : List (String × String) := []
  position : Position := ⟨0, 0, 0, 0⟩
  xpath : Option String := none
  cssPath : Option String := none
deriving DecidableEq

/-- `LocatorConfig` from types.ts: every field optional. -/
structure LocatorConfig where
  maxStrategies : Option Nat := none
  includeXPath : Option Bool := none
  includeCssPath : Option Bool := none
  prioritizeTestAttributes : Option Bool := none
  fallbackToPosition : Option Bool := none
  customAttributes : Option (List String) := none
deriving DecidableEq

/-- `Required<LocatorConfig>`: what the `LocatorEngine` constructor stores. -/
structure ResolvedConfig where
  maxStrategies : Nat
  includeXPath : Bool
  includeCssPath : Bool
  prioritizeTestAttributes : Bool
  fallbackToPosition : Bool
  customAttributes : List String
deriving DecidableEq

/-- The `LocatorEngine` constructor: each option defaulted with `??`
(`maxStrategies` 10, `includeXPath` true, `includeCssPath` true,
`prioritizeTestAttributes` true, `fallbackToPosition` false,
`customAttributes` `[]`). -/
def resolveConfig (config : Option LocatorConfig) : ResolvedConfig where
  maxStrategies := (config.bind LocatorConfig.maxStrategies).getD 10
  includeXPath := (config.bind LocatorConfig.includeXPath).getD true
  includeCssPath := (config.bind LocatorConfig.includeCssPath).getD true
  prioritizeTestAttributes := (config.bind LocatorConfig.prioritizeTestAttributes).getD true
  fallbackToPosition := (config.bind LocatorConfig.fallbackToPosition).getD false
  customAttributes := (config.bind LocatorConfig.customAttributes).getD []

/-- JS truthiness for an optional string: `undefined` and `""` are falsy. -/
def truthyStr : Option String → Option String
  | none => none
  | some s => if s = "" then none else some s

/-- Lookup in the attribute bag (`attributes[name]`). -/
def getAttr (attributes : List (String × String)) (name : String) : Option String :=
  (attributes.find? (fun p => p.1 = name)).map (·.2)

/-- `attributes[name]` used in a JS truthiness test. -/
def truthyAttr (attributes : List (String × String)) (name : String) : Option String :=
  truthyStr (getAttr attributes name)

/-- JS `s.includes(pat)` for a non-empty pattern. -/
def strIncludes (s pat : String) : Bool :=
  (s.splitOn pat).length > 1

/-- JS `s.toLowerCase()` (ASCII case folding suffices for the vocabularies used). -/
def jsToLower (s : String) : String :=
  s.map Char.toLower

/-- JS `Math.round` (round half up). -/
def jsRound (q : ℚ) : Int :=
  ⌊q + 1 / 2⌋

/-- The fixed test-oriented id vocabulary of `isTestLikeId`. -/
def testPatterns : List String :=
  ["test", "qa", "cypress", "selenium", "playwright", "automation"]

/-- `isTestLikeId`: id lower-cased contains some vocabulary word. -/
def isTestLikeId (idStr : String) : Bool :=
  testPatterns.any (fun pattern => strIncludes (jsToLower idStr) pattern)

/-- One-or-more digits. -/
def digits1 (cs : List Char) : Bool :=
  !cs.isEmpty && cs.all Char.isDigit

/-- A `-` followed by one-or-more digits, consuming the whole remainder. -/
def dashDigits : List Char → Bool
  | '-' :: rest => digits1 rest
  | _ => false

/-- JS regex `^(p|m)[trblxy]?-\d+$` (Tailwind spacing). -/
def matchSpacing (s : String) : Bool :=
  match s.toList with
  | c :: rest =>
    (c == 'p' || c == 'm') &&
      (dashDigits rest ||
        (match rest with
         | d :: rest2 => ['t', 'r', 'b', 'l', 'x', 'y'].contains d && dashDigits rest2
         | [] => false))
  | [] => false

/-- Zero-or-more digits followed by exactly `xl` (the `\d*xl` alternative). -/
def matchDigitsXl : List Char → Bool
  | [] => false
  | c :: rest => if c.isDigit then matchDigitsXl rest else c :: rest == ['x', 'l']

/-- JS regex `^text-(xs|sm|base|lg|xl|\d*xl)$` (Tailwind text sizes). -/
def matchTextSize (s : String) : Bool :=
  "text-".isPrefixOf s &&
    (let rest := s.drop 5
     rest == "xs" || rest == "sm" || rest == "base" || rest == "lg" || rest == "xl" ||
       matchDigitsXl rest.toList)

/-- JS regex `^(w|h)-\d+$` (Tailwind width/height). -/
def matchWidthHeight (s : String) : Bool :=
  match s.toList with
  | c :: rest => (c == 'w' || c == 'h') && dashDigits rest
  | [] => false

/-- JS `\w`: `[A-Za-z0-9_]`. -/
def isWordChar (c : Char) : Bool :=
  c.isAlphanum || c == '_'

/-- Remainder of `\w+(-\d+)?$` after its first word character. -/
def wordTail : List Char → Bool
  | [] => true
  | c :: rest => if isWordChar c then wordTail rest else dashDigits (c :: rest)

/-- `\w+(-\d+)?$`: one-or-more word characters, optionally `-` digits. -/
def wordDashDigits : List Char → Bool
  | [] => false
  | c :: rest => isWordChar c && wordTail rest

/-- JS regex `^(bg|text|border)-\w+(-\d+)?$` (Tailwind colors). -/
def matchColorUtility (s : String) : Bool :=
  ["bg", "text", "border"].any (fun p =>
    (p ++ "-").isPrefixOf s && wordDashDigits ((s.drop (p.length + 1)).toList))

/-- JS regex `^(flex|block|inline|hidden)$` (Tailwind display). -/
def matchDisplay (s : String) : Bool :=
  s == "flex" || s == "block" || s == "inline" || s == "hidden"

/-- JS regex `^[a-z0-9]{6,}$` (long random strings). -/
def matchLongRandom (s : String) : Bool :=
  s.length ≥ 6 && s.toList.all (fun c => c.isLower || c.isDigit)

/-- `isUtilityClass`: any of the six utility patterns matches. -/
def isUtilityClass (className : String) : Bool :=
  matchSpacing className || matchTextSize className || matchWidthHeight className ||
    matchColorUtility className || matchDisplay className || matchLongRandom className

/-- `selectBestClass`: first non-utility class, falling back to the first class.
The source indexes `classes[0]!`; the caller guarantees non-emptiness and the
model returns `""` on the impossible empty case. -/
def selectBestClass (classes : List String) : String :=
  match classes.filter (fun cls => !isUtilityClass cls) with
  | cls :: _ => cls
  | [] => classes.headD ""

/-- `getInputRole`: implicit ARIA role of an `input` from its `type`. -/
def getInputRole (ty : Option String) : List String :=
  match truthyStr ty with
  | none => ["textbox"]
  | some t =>
    if t = "button" ∨ t = "submit" ∨ t = "reset" then ["button"]
    else if t = "checkbox" then ["checkbox"]
    else if t = "radio" then ["radio"]
    else if t = "text" ∨ t = "email" ∨ t = "password" ∨ t = "tel" ∨ t = "url" then ["textbox"]
    else if t = "search" then ["searchbox"]
    else if t = "number" then ["spinbutton"]
    else if t = "range" then ["slider"]
    else ["textbox"]

/-- `getImplicitRole`: the fixed tag → implicit-role table
(default `[]` for tags outside the table). -/
def getImplicitRole (tagName : String) (attributes : List (String × String)) : List String :=
  if tagName = "button" then ["button"]
  else if tagName = "a" then
    (match truthyAttr attributes "href" with
     | some _ => ["link"]
     | none => [])
  else if tagName = "input" then getInputRole (getAttr attributes "type")
  else if tagName = "select" then ["combobox"]
  else if tagName = "textarea" then ["textbox"]
  else if tagName = "img" then ["img"]
  else if tagName = "nav" then ["navigation"]
  else if tagName = "main" then ["main"]
  else if tagName = "header" then ["banner"]
  else if tagName = "footer" then ["contentinfo"]
  else if tagName = "aside" then ["complementary"]
  else if tagName = "section" then ["region"]
  else if tagName = "article" then ["article"]
  else if tagName = "h1" ∨ tagName = "h2" ∨ tagName = "h3" ∨ tagName = "h4" ∨
          tagName = "h5" ∨ tagName = "h6" then ["heading"]
  else []

/-- Priority 1-5: `addTestAttributeStrategies`. -/
def addTestAttributeStrategies (elementData : ElementData) : List LocatorStrategy :=
  (match truthyAttr elementData.attributes "data-testid" with
   | some v =>
     [{ type := .dataTestid, selector := "[data-testid=\"" ++ v ++ "\"]", priority := 1,
        description := "Data test ID (most reliable)", reliability := some 0.95 }]
   | none => []) ++
  (match truthyAttr elementData.attributes "data-test" with
   | some v =>
     [{ type := .dataTestid, selector := "[data-test=\"" ++ v ++ "\"]", priority := 2,
        description := "Data test attribute", reliability := some 0.9 }]
   | none => []) ++
  (match truthyAttr elementData.attributes "data-qa" with
   | some v =>
     [{ type := .dataTestid, selector := "[data-qa=\"" ++ v ++ "\"]", priority := 3,
        description := "Data QA attribute", reliability := some 0.9 }]
   | none => []) ++
  (match truthyAttr elementData.attributes "test-id" with
   | some v =>
     [{ type := .dataTestid, selector := "[test-id=\"" ++ v ++ "\"]", priority := 4,
        description := "Test ID attribute", reliability := some 0.85 }]
   | none => []) ++
  (match truthyStr elementData.id with
   | some i =>
     if isTestLikeId i then
       [{ type := .id, selector := "#" ++ i, priority := 5,
          description := "Test-like ID", reliability := some 0.8 }]
     else []
   | none => [])

/-- Priority 6-10: `addSemanticStrategies`. -/
def addSemanticStrategies (elementData : ElementData) : List LocatorStrategy :=
  (match truthyStr elementData.id with
   | some i =>
     if !isTestLikeId i then
       [{ type := .id, selector := "#" ++ i, priority := 6,
          description := "Element ID", reliability := some 0.8 }]
     else []
   | none => []) ++
  (match truthyAttr elementData.attributes "aria-label" with
   | some v =>
     [{ type := .ariaLabel, selector := "[aria-label=\"" ++ v ++ "\"]", priority := 7,
        description := "ARIA label", reliability := some 0.75 }]
   | none => []) ++
  (match truthyAttr elementData.attributes "aria-labelledby" with
   | some v =>
     [{ type := .ariaLabel, selector := "[aria-labelledby=\"" ++ v ++ "\"]", priority := 8,
        description := "ARIA labelledby", reliability := some 0.7 }]
   | none => []) ++
  (match truthyAttr elementData.attributes "name" with
   | some v =>
     [{ type := .css, selector := "[name=\"" ++ v ++ "\"]", priority := 9,
        description := "Name attribute", reliability := some 0.75 }]
   | none => []) ++
  (match truthyAttr elementData.attributes "for" with
   | some v =>
     [{ type := .css, selector := "[for=\"" ++ v ++ "\"]", priority := 10,
        description := "For attribute (labels)", reliability := some 0.7 }]
   | none => [])

/-- Priority 11-15: `addRoleStrategies`. -/
def addRoleStrategies (elementData : ElementData) : List LocatorStrategy :=
  (match truthyAttr elementData.attributes "role" with
   | some v =>
     [{ type := .role, selector := "[role=\"" ++ v ++ "\"]", priority := 11,
        description := "ARIA role", reliability := some 0.6 }]
   | none => []) ++
  (getImplicitRole elementData.tagName elementData.attributes).mapIdx (fun index role =>
    { type := .role, selector := elementData.tagName ++ "[role=\"" ++ role ++ "\"]",
      priority := 12 + (index : Int),
      description := "Implicit role: " ++ role, reliability := some 0.55 })

/-- Priority 16-20: `addTextStrategies`. The whole tier (including the
placeholder and alt selectors) is guarded by the captured text being
non-empty and at most 50 characters. -/
def addTextStrategies (elementData : ElementData) : List LocatorStrategy :=
  match truthyStr elementData.textContent with
  | none => []
  | some textContent =>
    if textContent.length > 50 then []
    else
      [{ type := .text, selector := "text=\"" ++ textContent ++ "\"", priority := 16,
         description := "Exact text content", reliability := some 0.7 }] ++
      (if textContent.length > 10 then
         [{ type := .text, selector := "text*=\"" ++ textContent.take 20 ++ "\"", priority := 17,
            description := "Partial text content", reliability := some 0.6 }]
       else []) ++
      [{ type := .text,
         selector := elementData.tagName ++ ":has-text(\"" ++ textContent ++ "\")", priority := 18,
         description := "Tag with text content", reliability := some 0.65 }] ++
      (match truthyAttr elementData.attributes "placeholder" with
       | some v =>
         [{ type := .css, selector := "[placeholder=\"" ++ v ++ "\"]", priority := 19,
            description := "Placeholder text", reliability := some 0.7 }]
       | none => []) ++
      (match truthyAttr elementData.attributes "alt" with
       | some v =>
         [{ type := .css, selector := "[alt=\"" ++ v ++ "\"]", priority := 20,
            description := "Alt text", reliability := some 0.7 }]
       | none => [])

/-- Priority 21-25: `addStructureStrategies`. -/
def addStructureStrategies (config : ResolvedConfig) (elementData : ElementData) :
    List LocatorStrategy :=
  (match truthyStr elementData.className with
   | some className =>
     let classes := (className.splitOn " ").filter (fun cls =>
       cls.length > 0 && !isUtilityClass cls)
     if classes.length > 0 then
       let bestClass := selectBestClass classes
       [{ type := .css, selector := "." ++ bestClass, priority := 21,
          description := "Best class selector", reliability := some 0.5 },
        { type := .css, selector := elementData.tagName ++ "." ++ bestClass, priority := 22,
          description := "Tag with class", reliability := some 0.55 }]
     else []
   | none => []) ++
  (if elementData.tagName = "input" then
     match truthyAttr elementData.attributes "type" with
     | some t =>
       [{ type := .css, selector := "input[type=\"" ++ t ++ "\"]", priority := 23,
          description := "Input type", reliability := some 0.4 }]
     | none => []
   else []) ++
  [{ type := .css, selector := elementData.tagName, priority := 24,
     description := "Tag name", reliability := some 0.2 }] ++
  (if config.includeCssPath then
     match truthyStr elementData.cssPath with
     | some p =>
       [{ type := .css, selector := p, priority := 25,
          description := "CSS path", reliability := some 0.8 }]
     | none => []
   else [])

/-- Priority 26-30: `addAttributeCombinationStrategies`. -/
def addAttributeCombinationStrategies (config : ResolvedConfig) (elementData : ElementData) :
    List LocatorStrategy :=
  (config.customAttributes.mapIdx (fun index attr =>
    match truthyAttr elementData.attributes attr with
    | some v =>
      [{ type := .css, selector := "[" ++ attr ++ "=\"" ++ v ++ "\"]",
         priority := 26 + (index : Int),
         description := "Custom attribute: " ++ attr, reliability := some 0.6 }]
    | none => [])).flatten ++
  (if elementData.tagName = "input" ∨ elementData.tagName = "button" then
     match truthyAttr elementData.attributes "value" with
     | some v =>
       [{ type := .css, selector := elementData.tagName ++ "[value=\"" ++ v ++ "\"]",
          priority := 28, description := "Tag with value", reliability := some 0.6 }]
     | none => []
   else []) ++
  (if elementData.tagName = "a" then
     match truthyAttr elementData.attributes "href" with
     | some v =>
       [{ type := .css, selector := "a[href=\"" ++ v ++ "\"]", priority := 29,
          description := "Link with href", reliability := some 0.65 }]
     | none => []
   else []) ++
  (if elementData.tagName = "img" ∨ elementData.tagName = "iframe" then
     match truthyAttr elementData.attributes "src" with
     | some v =>
       [{ type := .css, selector := elementData.tagName ++ "[src=\"" ++ v ++ "\"]",
          priority := 30, description := "Element with src", reliability := some 0.6 }]
     | none => []
   else [])

/-- Priority 31-35: `addFallbackStrategies`. -/
def addFallbackStrategies (config : ResolvedConfig) (elementData : ElementData) :
    List LocatorStrategy :=
  (if config.includeXPath then
     match truthyStr elementData.xpath with
     | some xp =>
       [{ type := .xpath, selector := xp, priority := 31,
          description := "XPath selector", reliability := some 0.9 }]
     | none => []
   else []) ++
  (if config.fallbackToPosition then
     [{ type := .xpath,
        selector := "//*[@data-locatorpro-x=\"" ++ toString (jsRound elementData.position.x) ++
          "\" and @data-locatorpro-y=\"" ++ toString (jsRound elementData.position.y) ++ "\"]",
        priority := 35, description := "Position-based fallback", reliability := some 0.3 }]
   else [])

/-- `generateAllStrategies`: the seven tiers concatenated, then strategies
with an empty selector dropped. -/
def generateAllStrategies (config : ResolvedConfig) (elementData : ElementData) :
    List LocatorStrategy :=
  (addTestAttributeStrategies elementData ++
   addSemanticStrategies elementData ++
   addRoleStrategies elementData ++
   addTextStrategies elementData ++
   addStructureStrategies config elementData ++
   addAttributeCombinationStrategies config elementData ++
   addFallbackStrategies config elementData).filter (fun s => s.selector.length > 0)

/-- Ascending priority, the order of the JS comparator `a.priority - b.priority`. -/
def priorityLE (a b : LocatorStrategy) : Prop :=
  a.priority ≤ b.priority

instance : DecidableRel priorityLE := fun a b => Int.decLe a.priority b.priority

instance : IsTotal LocatorStrategy priorityLE := ⟨fun a b => Int.le_total a.priority b.priority⟩

instance : IsTrans LocatorStrategy priorityLE := ⟨fun _ _ _ => Int.le_trans⟩

/-- JS `strategies.sort((a, b) => a.priority - b.priority)`: a stable sort
ascending by priority. -/
def sortByPriority (strategies : List LocatorStrategy) : List LocatorStrategy :=
  List.insertionSort priorityLE strategies

/-- The external document collaborator: how many elements a selector of a
given kind resolves to on the current page. `none` models a query that
throws at the document layer (always caught by the engine). -/
structure Doc where
  count : StrategyType → String → Option Nat

/-- The fields of `ValidationResult` that `validateStrategies` consumes
(the `strategy` and `elements` echoes of the source are not read). -/
structure ValidationResult where
  isValid : Bool
  uniqueMatches : Nat
deriving DecidableEq

/-- `testStrategy`: execute the strategy; `isValid` iff at least one element
matched; a thrown query error yields `{isValid := false, uniqueMatches := 0}`. -/
def testStrategy (doc : Doc) (strategy : LocatorStrategy) : ValidationResult :=
  match doc.count strategy.type strategy.selector with
  | some n => { isValid := decide (n > 0), uniqueMatches := n }
  | none => { isValid := false, uniqueMatches := 0 }

/-- `validateStrategies`: annotate `isUnique` with `uniqueMatches === 1` and
keep a strategy iff `isValid && uniqueMatches <= 5`; a strategy whose
validation throws is dropped. -/
def validateStrategies (doc : Doc) (strategies : List LocatorStrategy) :
    List LocatorStrategy :=
  strategies.filterMap (fun strategy =>
    let result := testStrategy doc strategy
    let annotated := { strategy with isUnique := some (result.uniqueMatches == 1) }
    if result.isValid && result.uniqueMatches ≤ 5 then some annotated else none)

/-- `selectPrimaryStrategy`: empty list gives `""`; otherwise the first
strategy with a truthy `isUnique`, else the first strategy. -/
def selectPrimaryStrategy : List LocatorStrategy → String
  | [] => ""
  | first :: rest =>
    match (first :: rest).filter (fun s => s.isUnique.getD false) with
    | u :: _ => u.selector
    | [] => first.selector

/-- JS `strategy.reliability || 0.5`: an absent reliability, and also an
exact 0 (falsy in JS), become 0.5. -/
def effectiveReliability (strategy : LocatorStrategy) : ℚ :=
  match strategy.reliability with
  | some r => if r = 0 then 0.5 else r
  | none => 0.5

/-- JS `strategy.isUnique ? 2 : 1`. -/
def strategyWeight (strategy : LocatorStrategy) : ℚ :=
  if strategy.isUnique.getD false then 2 else 1

/-- `calculateConfidence`: 0 for the empty list, otherwise the ratio of the
weighted reliability sum to the weight sum (guarded by `weightSum > 0`). -/
def calculateConfidence (strategies : List LocatorStrategy) : ℚ :=
  if strategies.isEmpty then 0
  else
    let totalReliability :=
      (strategies.map (fun s => effectiveReliability s * strategyWeight s)).sum
    let weightSum := (strategies.map strategyWeight).sum
    if weightSum > 0 then totalReliability / weightSum else 0

/-- `LocatorResult` from types.ts. -/
structure LocatorResult where
  strategies : List LocatorStrategy
  primarySelector : String
  confidence : ℚ
  elementData : ElementData
deriving DecidableEq

/-- `generateSelectors`, starting from the captured snapshot: generate all
strategies, sort ascending by priority, truncate to `maxStrategies`,
validate against the document, then derive the primary selector and the
confidence score. -/
def generateSelectors (config : ResolvedConfig) (doc : Doc) (elementData : ElementData) :
    LocatorResult :=
  let strategies := generateAllStrategies config elementData
  let sortedStrategies := (sortByPriority strategies).take config.maxStrategies
  let validatedStrategies := validateStrategies doc sortedStrategies
  { strategies := validatedStrategies,
    primarySelector := selectPrimaryStrategy validatedStrategies,
    confidence := calculateConfidence validatedStrategies,
    elementData := elementData }

/-! DOM tree model for `generateXPath`. An element is designated by the
root of the document tree together with the list of child indices leading
to it; `previousElementSibling` walks are counts over the preceding part
of the parent's child list. -/

/-- An element node: tag name and element children in document order. -/
inductive DomTree where
  | node (tag : String) (children : List DomTree)

/-- Tag name of a node. -/
def DomTree.tag : DomTree → String
  | .node t _ => t

/-- Element children of a node. -/
def DomTree.children : DomTree → List DomTree
  | .node _ cs => cs

/-- The element a child-index path leads to, when the path is valid. -/
def nodeAt (current : DomTree) : List Nat → Option DomTree
  | [] => some current
  | i :: rest => (current.children.get? i).bind (fun child => nodeAt child rest)

/-- The while loop of `generateXPath`: 1 plus the number of preceding
siblings sharing the element's tag. -/
def sameTagIndex (siblings : List DomTree) (i : Nat) (tag : String) : Nat :=
  1 + ((siblings.take i).filter (fun s => s.tag = tag)).length

/-- `index > 1 ? tag[index] : tag`. -/
def pathSegment (tag : String) (index : Nat) : String :=
  if index > 1 then tag ++ "[" ++ toString index ++ "]" else tag

/-- Path segments of `generateXPath` below the current node (root-to-element
order, matching the source's `unshift` accumulation). -/
def xpathPartsFrom (current : DomTree) : List Nat → Option (List String)
  | [] => some []
  | i :: rest =>
    (current.children.get? i).bind (fun child =>
      (xpathPartsFrom child rest).map (fun parts =>
        pathSegment child.tag (sameTagIndex current.children i child.tag) :: parts))

/-- `generateXPath`: walk from the element to the root, emit a segment per
level, join root-to-element with `/` and prefix with `//`. The root element
has no preceding siblings, so its segment is the bare tag. -/
def generateXPath (root : DomTree) (path : List Nat) : Option String :=
  (xpathPartsFrom root path).map (fun parts =>
    "//" ++ String.intercalate "/" (pathSegment root.tag 1 :: parts))

/-! SmartLocator (src/smart-locator.ts): the free-text pipeline's
truncation, the composite locator builder, and the debug introspection. -/

/-- `analyzeBestStrategies` line `this.options.config?.maxStrategies || 5`:
JS `||` also replaces an explicit 0 by the default 5. -/
def freeTextMaxStrategies (config : Option LocatorConfig) : Nat :=
  match config.bind LocatorConfig.maxStrategies with
  | none => 5
  | some 0 => 5
  | some k => k

/-- The final truncation of `analyzeBestStrategies`:
`strategies.slice(0, maxStrategies)`. -/
def freeTextTruncate (config : Option LocatorConfig) (strategies : List LocatorStrategy) :
    List LocatorStrategy :=
  strategies.take (freeTextMaxStrategies config)

/-- A Playwright locator as built by `createSelfHealingLocator`: the
primary strategy's locator, extended by `or` fallbacks. -/
inductive PWLocator where
  | strat (s : LocatorStrategy)
  | orElse (l : PWLocator) (s : LocatorStrategy)
deriving DecidableEq

/-- The ordered fallback chain a composite locator tries. -/
def chainStrategies : PWLocator → List LocatorStrategy
  | .strat s => [s]
  | .orElse l s => chainStrategies l ++ [s]

/-- `createSelfHealingLocator`: throw on an empty strategy list, else sort
ascending by priority, start from index 0 and fold the rest with `or`. -/
def createSelfHealingLocator (strategies : List LocatorStrategy) :
    Except String PWLocator :=
  if strategies.isEmpty then
    .error "No strategies available for locator"
  else
    match sortByPriority strategies with
    | [] => .error "No strategies available for locator"
    | first :: rest => .ok (rest.foldl PWLocator.orElse (PWLocator.strat first))

/-- `validateLocator`: `locator.count() > 0`, with any error giving `false`.
The locator built for a strategy resolves per the document oracle. -/
def validateLocator (doc : Doc) (strategy : LocatorStrategy) : Bool :=
  match doc.count strategy.type strategy.selector with
  | some n => decide (n > 0)
  | none => false

/-- JS `a?.b || c` on selector strings: an empty selector also falls through. -/
def jsOrStr (a : Option String) (b : String) : String :=
  match truthyStr a with
  | some s => s
  | none => b

/-- The result record of `getDebugInfo`. -/
structure DebugInfo where
  strategies : List LocatorStrategy
  validStrategies : List LocatorStrategy
  recommended : String
deriving DecidableEq

/-- `getDebugInfo`, taking the list its strategy generation produced for the
selector: a strategy is kept in `validStrategies` iff `validateLocator`
holds, and every kept strategy is annotated `isUnique: true`. -/
def getDebugInfo (doc : Doc) (selector : String) (strategies : List LocatorStrategy) :
    DebugInfo :=
  let validStrategies := strategies.filterMap (fun strategy =>
    if validateLocator doc strategy then some { strategy with isUnique := some true }
    else none)
  { strategies := strategies,
    validStrategies := validStrategies,
    recommended :=
      jsOrStr (validStrategies.head?.map (·.selector))
        (jsOrStr (strategies.head?.map (·.selector)) selector) }

/-- Modelled from the spec: the confidence formula as §4.2 states it — the
weighted mean of the strategies' reliability priors themselves, weight 2
for a unique strategy and 1 otherwise, 0 for the empty list. Compared with
`calculateConfidence`, which substitutes 0.5 for an absent or zero prior. -/
def specConfidenceWeightedMean (strategies : List LocatorStrategy) : ℚ :=
  if strategies.isEmpty then 0
  else
    ((strategies.map (fun s => (s.reliability.getD 0) * strategyWeight s)).sum) /
      ((strategies.map strategyWeight).sum)

/-! Helper lemmas. -/

theorem filterMap_if_eq_map_filter {α β : Type _} (p : α → Bool) (f : α → β) (l : List α) :
    (l.filterMap fun a => if p a then some (f a) else none) = (l.filter p).map f := by
  induction l with
  | nil => rfl
  | cons a t ih => by_cases h : p a <;> simp [List.filterMap_cons, List.filter_cons, h, ih]

theorem head?_filter {α : Type _} (p : α → Bool) (l : List α) :
    (l.filter p).head? = l.find? p := by
  induction l with
  | nil => rfl
  | cons a t ih =>
    by_cases h : p a <;> simp [List.filter_cons, List.find?_cons, h, ih]

/-- `validateStrategies` as filter-then-annotate. -/
theorem validateStrategies_eq (doc : Doc) (strategies : List LocatorStrategy) :
    validateStrategies doc strategies =
      (strategies.filter (fun s =>
        (testStrategy doc s).isValid && decide ((testStrategy doc s).uniqueMatches ≤ 5))).map
        (fun s => { s with isUnique := some ((testStrategy doc s).uniqueMatches == 1) }) :=
  filterMap_if_eq_map_filter _ _ strategies

/-- C1: validation retains a strategy iff its selector execution matches at
least 1 and at most 5 elements (an erroring query is dropped), and each
retained strategy's `isUnique` is set to true exactly when the match count
is 1 (false for counts 2 through 5). -/
theorem validateStrategies_spec (doc : Doc) (strategies : List LocatorStrategy) :
    validateStrategies doc strategies =
      (strategies.filter (fun s =>
        match doc.count s.type s.selector with
        | some n => decide (1 ≤ n) && decide (n ≤ 5)
        | none => false)).map
        (fun s => { s with isUnique := some (decide (doc.count s.type s.selector = some 1)) }) := by
  rw [validateStrategies_eq]
  have hcond : ∀ s : LocatorStrategy,
      ((testStrategy doc s).isValid && decide ((testStrategy doc s).uniqueMatches ≤ 5)) =
        (match doc.count s.type s.selector with
         | some n => decide (1 ≤ n) && decide (n ≤ 5)
         | none => false) := by
    intro s
    cases h : doc.count s.type s.selector with
    | none => simp [testStrategy, h]
    | some n =>
      simp only [testStrategy, h]
      have h01 : decide (n > 0) = decide (1 ≤ n) := by
        rw [decide_eq_decide]
        omega
      rw [h01]
  have hann : ∀ s : LocatorStrategy,
      ({ s with isUnique := some ((testStrategy doc s).uniqueMatches == 1) } : LocatorStrategy) =
        { s with isUnique := some (decide (doc.count s.type s.selector = some 1)) } := by
    intro s
    cases h : doc.count s.type s.selector with
    | none => simp [testStrategy, h]
    | some n =>
      simp only [testStrategy, h, Option.some.injEq]
      by_cases he : n = 1 <;> simp [he]
  rw [funext hcond, funext hann]

/-- C2: the primary selector is the first strategy with `isUnique = true`;
with no unique strategy, the first strategy; for the empty list, `""`. -/
theorem selectPrimaryStrategy_spec (strategies : List LocatorStrategy) :
    selectPrimaryStrategy strategies =
      (((strategies.find? (fun s => s.isUnique.getD false)).map (·.selector)).getD
        ((strategies.head?.map (·.selector)).getD "")) := by
  cases strategies with
  | nil => rfl
  | cons first rest =>
    rw [← head?_filter]
    cases hfl : (first :: rest).filter (fun s => s.isUnique.getD false) with
    | nil => simp [selectPrimaryStrategy, hfl]
    | cons u l2 => simp [selectPrimaryStrategy, hfl]

theorem one_le_strategyWeight (s : LocatorStrategy) : (1 : ℚ) ≤ strategyWeight s := by
  unfold strategyWeight
  split <;> norm_num

theorem strategyWeight_nonneg (s : LocatorStrategy) : (0 : ℚ) ≤ strategyWeight s :=
  le_trans (by norm_num) (one_le_strategyWeight s)

theorem weightSum_nonneg (strategies : List LocatorStrategy) :
    (0 : ℚ) ≤ (strategies.map strategyWeight).sum := by
  apply List.sum_nonneg
  intro x hx
  obtain ⟨s, _, rfl⟩ := List.mem_map.mp hx
  exact strategyWeight_nonneg s

theorem weightSum_pos {strategies : List LocatorStrategy} (h : strategies ≠ []) :
    (0 : ℚ) < (strategies.map strategyWeight).sum := by
  cases strategies with
  | nil => exact absurd rfl h
  | cons a t =>
    have h1 := one_le_strategyWeight a
    have h2 := weightSum_nonneg t
    simp only [List.map_cons, List.sum_cons]
    linarith

/-- The non-degenerate branch of `calculateConfidence`. -/
theorem calculateConfidence_eq {strategies : List LocatorStrategy} (h : strategies ≠ []) :
    calculateConfidence strategies =
      ((strategies.map fun s => effectiveReliability s * strategyWeight s).sum) /
        ((strategies.map strategyWeight).sum) := by
  have hpos := weightSum_pos h
  unfold calculateConfidence
  rw [if_neg (by simpa [List.isEmpty_iff] using h), if_pos hpos]

/-- The definitional counterexample input: a validated strategy with a
reliability prior of exactly 0 (an allowed prior in `[0,1]`). -/
def zeroPriorStrategy : LocatorStrategy :=
  { type := .css, selector := "a", priority := 1, description := "",
    isUnique := some false, reliability := some 0 }

/-- C3 counterexample: for the single-strategy list whose prior is 0 (a
value inside `[0,1]`), the code's confidence is 1/2 — JS
`strategy.reliability || 0.5` treats the falsy prior 0 as 0.5 — while the
claimed weighted mean of the priors is 0. -/
theorem confidence_zero_prior_counterexample :
    zeroPriorStrategy.reliability = some 0 ∧ (0 : ℚ) ≤ 0 ∧ (0 : ℚ) ≤ 1 ∧
      calculateConfidence [zeroPriorStrategy] = 1 / 2 ∧
      specConfidenceWeightedMean [zeroPriorStrategy] = 0 ∧
      calculateConfidence [zeroPriorStrategy] ≠
        specConfidenceWeightedMean [zeroPriorStrategy] := by
  have h1 : calculateConfidence [zeroPriorStrategy] = 1 / 2 := by
    rw [calculateConfidence_eq (by simp)]
    norm_num [zeroPriorStrategy, effectiveReliability, strategyWeight]
  have h2 : specConfidenceWeightedMean [zeroPriorStrategy] = 0 := by
    norm_num [specConfidenceWeightedMean, zeroPriorStrategy, strategyWeight]
  refine ⟨rfl, le_refl 0, by norm_num, h1, h2, ?_⟩
  rw [h1, h2]
  norm_num

/-- C3 (amended): for a validated list all of whose reliability priors are
present and lie in `(0, 1]` — a prior of exactly 0 or an absent prior is
instead replaced by 0.5 — the confidence equals the weighted mean of the
priors with weight 2 for a unique strategy and 1 otherwise; the result lies
in `[0,1]`, and the empty list yields 0. -/
theorem calculateConfidence_weighted_mean (strategies : List LocatorStrategy)
    (h : ∀ s ∈ strategies, ∃ r, s.reliability = some r ∧ 0 < r ∧ r ≤ 1) :
    calculateConfidence strategies = specConfidenceWeightedMean strategies ∧
      0 ≤ calculateConfidence strategies ∧ calculateConfidence strategies ≤ 1 ∧
      calculateConfidence [] = 0 := by
  have heff : ∀ s ∈ strategies, effectiveReliability s = s.reliability.getD 0 := by
    intro s hs
    obtain ⟨r, hr, hrpos, _⟩ := h s hs
    simp [effectiveReliability, hr, ne_of_gt hrpos]
  have heff01 : ∀ s ∈ strategies, 0 ≤ effectiveReliability s ∧ effectiveReliability s ≤ 1 := by
    intro s hs
    obtain ⟨r, hr, hrpos, hrle⟩ := h s hs
    rw [heff s hs, hr]
    exact ⟨le_of_lt hrpos, hrle⟩
  by_cases hnil : strategies = []
  · subst hnil
    exact ⟨rfl, le_refl 0, by norm_num [calculateConfidence], rfl⟩
  · have hden := weightSum_pos hnil
    have hnum_le : ((strategies.map fun s => effectiveReliability s * strategyWeight s).sum) ≤
        (strategies.map strategyWeight).sum := by
      have : ((strategies.map fun s => effectiveReliability s * strategyWeight s).sum) ≤
          ((strategies.map fun s => 1 * strategyWeight s).sum) := by
        apply List.sum_le_sum
        intro s hs
        exact mul_le_mul_of_nonneg_right (heff01 s hs).2 (strategyWeight_nonneg s)
      simpa using this
    have hnum_nonneg : (0 : ℚ) ≤
        ((strategies.map fun s => effectiveReliability s * strategyWeight s).sum) := by
      apply List.sum_nonneg
      intro x hx
      obtain ⟨s, hs, rfl⟩ := List.mem_map.mp hx
      exact mul_nonneg (heff01 s hs).1 (strategyWeight_nonneg s)
    refine ⟨?_, ?_, ?_, rfl⟩
    · rw [calculateConfidence_eq hnil]
      unfold specConfidenceWeightedMean
      rw [if_neg (by simpa [List.isEmpty_iff] using hnil)]
      have hm : (strategies.map fun s => effectiveReliability s * strategyWeight s) =
          strategies.map fun s => s.reliability.getD 0 * strategyWeight s :=
        List.map_congr_left (fun s hs => by rw [heff s hs])
      rw [hm]
    · rw [calculateConfidence_eq hnil]
      exact div_nonneg hnum_nonneg (le_of_lt hden)
    · rw [calculateConfidence_eq hnil]
      exact (div_le_one hden).mpr hnum_le

/-- A well-formed strategy for instantiating the amended C3. -/
def confidenceWitnessStrategy : LocatorStrategy :=
  { type := .dataTestid, selector := "[data-testid=\"submit\"]", priority := 1,
    description := "", isUnique := some true, reliability := some (9 / 10) }

theorem calculateConfidence_weighted_mean_witness :
    calculateConfidence [confidenceWitnessStrategy] =
        specConfidenceWeightedMean [confidenceWitnessStrategy] ∧
      0 ≤ calculateConfidence [confidenceWitnessStrategy] ∧
      calculateConfidence [confidenceWitnessStrategy] ≤ 1 ∧
      calculateConfidence [] = 0 :=
  calculateConfidence_weighted_mean [confidenceWitnessStrategy] (by
    intro s hs
    rw [List.mem_singleton] at hs
    subst hs
    exact ⟨9 / 10, rfl, by norm_num, by norm_num⟩)

theorem div_succ_gt_iff (S r W : ℚ) (hW : 0 < W) :
    ((S + r) / (W + 1) > S / W) ↔ r > S / W := by
  have hW1 : (0 : ℚ) < W + 1 := by linarith
  rw [gt_iff_lt, div_lt_div_iff₀ hW hW1, gt_iff_lt, div_lt_iff₀ hW]
  constructor <;> intro hlt <;> nlinarith

/-- The definitional counterexample input: a single validated non-unique
strategy. -/
def singletonNonUnique : LocatorStrategy :=
  { type := .css, selector := "a", priority := 1, description := "",
    isUnique := some false, reliability := some (1 / 2) }

/-- C4 counterexample: on the one-element validated list, replacing its
non-unique strategy by the otherwise-identical unique one leaves the
confidence unchanged (both weighted means are the strategy's own
reliability), so the claimed strict increase fails. -/
theorem confidence_unique_singleton_counterexample :
    singletonNonUnique.isUnique = some false ∧
      calculateConfidence [{ singletonNonUnique with isUnique := some true }] =
        calculateConfidence [singletonNonUnique] ∧
      ¬ (calculateConfidence [{ singletonNonUnique with isUnique := some true }] >
          calculateConfidence [singletonNonUnique]) := by
  have h1 : calculateConfidence [singletonNonUnique] = 1 / 2 := by
    rw [calculateConfidence_eq (by simp)]
    norm_num [singletonNonUnique, effectiveReliability, strategyWeight]
  have h2 : calculateConfidence [{ singletonNonUnique with isUnique := some true }] = 1 / 2 := by
    rw [calculateConfidence_eq (by simp)]
    norm_num [singletonNonUnique, effectiveReliability, strategyWeight]
  refine ⟨rfl, by rw [h1, h2], ?_⟩
  rw [h1, h2]
  norm_num

/-- C4 (amended): replacing a non-unique validated strategy (at any
position) by the otherwise-identical unique strategy strictly increases the
confidence iff the strategy's effective reliability exceeds the original
confidence; in particular the confidence can stay equal (singleton lists)
or decrease. -/
theorem confidence_set_unique_iff (pre post : List LocatorStrategy) (s : LocatorStrategy)
    (hnon : s.isUnique.getD false = false) :
    ((calculateConfidence (pre ++ { s with isUnique := some true } :: post) >
        calculateConfidence (pre ++ s :: post)) ↔
      effectiveReliability s > calculateConfidence (pre ++ s :: post)) := by
  have hne : pre ++ s :: post ≠ [] := by simp
  have hne2 : pre ++ { s with isUnique := some true } :: post ≠ [] := by simp
  have hws : strategyWeight s = 1 := by simp [strategyWeight, hnon]
  have hwu : strategyWeight { s with isUnique := some true } = 2 := by simp [strategyWeight]
  have heu : effectiveReliability { s with isUnique := some true } = effectiveReliability s := rfl
  rw [calculateConfidence_eq hne, calculateConfidence_eq hne2]
  simp only [List.map_append, List.map_cons, List.sum_append, List.sum_cons, hws, hwu, heu,
    mul_one]
  have hWA := weightSum_nonneg pre
  have hWB := weightSum_nonneg post
  set r := effectiveReliability s with hr
  set A := (pre.map fun t => effectiveReliability t * strategyWeight t).sum with hA
  set B := (post.map fun t => effectiveReliability t * strategyWeight t).sum with hB
  set WA := (pre.map strategyWeight).sum with hWAdef
  set WB := (post.map strategyWeight).sum with hWBdef
  have hW : (0 : ℚ) < WA + (1 + WB) := by linarith
  have e1 : A + (r * 2 + B) = (A + (r + B)) + r := by ring
  have e2 : WA + (2 + WB) = (WA + (1 + WB)) + 1 := by ring
  rw [e1, e2]
  exact div_succ_gt_iff (A + (r + B)) r (WA + (1 + WB)) hW

/-- Witness inputs for the amended C4: two-strategy list, the replaced
strategy's reliability 9/10 above the list confidence 1/2. -/
def highReliabilityNonUnique : LocatorStrategy :=
  { type := .css, selector := "a", priority := 1, description := "",
    isUnique := some false, reliability := some (9 / 10) }

/-- The second, low-reliability strategy of the C4 witness list. -/
def lowReliabilityNonUnique : LocatorStrategy :=
  { type := .css, selector := "b", priority := 2, description := "",
    isUnique := some false, reliability := some (1 / 10) }

theorem confidence_set_unique_iff_witness :
    ((calculateConfidence
          ([] ++ { highReliabilityNonUnique with isUnique := some true } ::
            [lowReliabilityNonUnique]) >
        calculateConfidence ([] ++ highReliabilityNonUnique :: [lowReliabilityNonUnique])) ↔
      effectiveReliability highReliabilityNonUnique >
        calculateConfidence ([] ++ highReliabilityNonUnique :: [lowReliabilityNonUnique])) :=
  confidence_set_unique_iff [] [lowReliabilityNonUnique] highReliabilityNonUnique rfl

/-- C5: with `maxStrategies` configured to any `k ≥ 0` (including 0, which
the constructor's `??` defaulting preserves), the generator's result — the
non-empty-selector strategies sorted ascending by priority, truncated to
`maxStrategies` and then validated — has at most `k` strategies. -/
theorem generateSelectors_cap (config : LocatorConfig) (k : Nat) (doc : Doc)
    (elementData : ElementData) :
    (generateSelectors (resolveConfig (some { config with maxStrategies := some k })) doc
        elementData).strategies.length ≤ k := by
  simp only [generateSelectors, validateStrategies]
  refine le_trans (List.length_filterMap_le _ _) ?_
  have hmax : (resolveConfig (some { config with maxStrategies := some k })).maxStrategies = k :=
    rfl
  rw [hmax]
  simp [List.length_take]

/-- Six distinct strategies, enough to separate a cap of 5 from a cap of 10. -/
def sixStrategies : List LocatorStrategy :=
  [{ type := .css, selector := "s1", priority := 1, description := "" },
   { type := .css, selector := "s2", priority := 2, description := "" },
   { type := .css, selector := "s3", priority := 3, description := "" },
   { type := .css, selector := "s4", priority := 4, description := "" },
   { type := .css, selector := "s5", priority := 5, description := "" },
   { type := .css, selector := "s6", priority := 6, description := "" }]

/-- C6 counterexample: the free-text pipeline's truncation
(`this.options.config?.maxStrategies || 5`) defaults to 5, not to the
documented 10: on a six-strategy list, leaving `maxStrategies` unset keeps
5 strategies while setting it to 10 keeps all 6. -/
theorem freeText_default_counterexample :
    (freeTextTruncate none sixStrategies).length = 5 ∧
      (freeTextTruncate (some { maxStrategies := some 10 }) sixStrategies).length = 6 ∧
      freeTextTruncate none sixStrategies ≠
        freeTextTruncate (some { maxStrategies := some 10 }) sixStrategies := by
  refine ⟨rfl, rfl, fun h => ?_⟩
  have hlen := congrArg List.length h
  simp only [freeTextTruncate, sixStrategies, List.length_take] at hlen
  exact absurd hlen (by norm_num [freeTextMaxStrategies])

/-- C6 (amended): the engine pipeline with `maxStrategies` unset behaves
exactly as with `maxStrategies = 10` (its default), but the free-text
pipeline's truncation with `maxStrategies` unset behaves as with
`maxStrategies = 5`, its own default. -/
theorem default_maxStrategies_spec :
    (∀ (doc : Doc) (elementData : ElementData),
        generateSelectors (resolveConfig none) doc elementData =
          generateSelectors (resolveConfig (some { maxStrategies := some 10 })) doc
            elementData) ∧
      (∀ strategies,
        freeTextTruncate none strategies =
          freeTextTruncate (some { maxStrategies := some 5 }) strategies) :=
  ⟨fun _ _ => rfl, fun _ => rfl⟩

/-- C9: the `prioritizeTestAttributes` flag is stored by the constructor
but never read by generation: any two runs whose configurations differ only
in that flag produce the same whole `LocatorResult`. -/
theorem prioritizeTestAttributes_noninterference (config : LocatorConfig) (b1 b2 : Bool)
    (doc : Doc) (elementData : ElementData) :
    generateSelectors (resolveConfig (some { config with prioritizeTestAttributes := some b1 }))
        doc elementData =
      generateSelectors (resolveConfig (some { config with prioritizeTestAttributes := some b2 }))
        doc elementData := rfl

/-- C10: the debug introspection keeps a strategy in `validStrategies` iff
its locator resolves at least one element — the at-most-5 band is not
applied — and annotates every kept strategy `isUnique: true` regardless of
its match count. -/
theorem getDebugInfo_spec (doc : Doc) (selector : String)
    (strategies : List LocatorStrategy) :
    ((getDebugInfo doc selector strategies).validStrategies =
        (strategies.filter (fun s =>
          match doc.count s.type s.selector with
          | some n => decide (1 ≤ n)
          | none => false)).map (fun s => { s with isUnique := some true })) ∧
      ∀ s ∈ (getDebugInfo doc selector strategies).validStrategies, s.isUnique = some true := by
  have hfm : (getDebugInfo doc selector strategies).validStrategies =
      (strategies.filter (validateLocator doc)).map
        (fun s => { s with isUnique := some true }) :=
    filterMap_if_eq_map_filter _ _ strategies
  have hcond : ∀ s : LocatorStrategy,
      validateLocator doc s =
        (match doc.count s.type s.selector with
         | some n => decide (1 ≤ n)
         | none => false) := by
    intro s
    cases h : doc.count s.type s.selector with
    | none => simp [validateLocator, h]
    | some n =>
      simp only [validateLocator, h]
      rw [decide_eq_decide]
      omega
  constructor
  · rw [hfm, funext hcond]
  · intro s hs
    rw [hfm] at hs
    obtain ⟨t, _, rfl⟩ := List.mem_map.mp hs
    rfl

theorem xpathPartsFrom_nil (current : DomTree) : xpathPartsFrom current [] = some [] := rfl

theorem xpathPartsFrom_cons (current : DomTree) (i : Nat) (rest : List Nat) :
    xpathPartsFrom current (i :: rest) =
      (current.children.get? i).bind (fun child =>
        (xpathPartsFrom child rest).map (fun parts =>
          pathSegment child.tag (sameTagIndex current.children i child.tag) :: parts)) := rfl

/-- A valid path yields segments, and extending the path appends the
segments computed from the reached node. -/
theorem xpathPartsFrom_valid {path : List Nat} :
    ∀ {current target : DomTree}, nodeAt current path = some target →
      ∃ parts, xpathPartsFrom current path = some parts ∧
        ∀ suffix, xpathPartsFrom current (path ++ suffix) =
          (xpathPartsFrom target suffix).map (fun ps => parts ++ ps) := by
  induction path with
  | nil =>
    intro current target h
    simp only [nodeAt] at h
    cases h
    refine ⟨[], rfl, fun suffix => ?_⟩
    rw [List.nil_append]
    cases xpathPartsFrom current suffix <;> simp
  | cons i rest ih =>
    intro current target h
    simp only [nodeAt] at h
    cases hc : current.children.get? i with
    | none => rw [hc] at h; simp at h
    | some child =>
      rw [hc] at h
      simp only [Option.some_bind] at h
      obtain ⟨parts, hp, hs⟩ := ih h
      refine ⟨pathSegment child.tag (sameTagIndex current.children i child.tag) :: parts,
        ?_, fun suffix => ?_⟩
      · rw [xpathPartsFrom_cons, hc, Option.some_bind, hp]
        rfl
      · rw [List.cons_append, xpathPartsFrom_cons, hc]
        simp only [Option.some_bind, hs suffix]
        cases xpathPartsFrom target suffix <;> simp

/-- C7: the hierarchical-position path is `//` followed by one
tag-anchored segment per level joined with `/`; for an element whose tag is
`li` with exactly one preceding `li` sibling (the 2nd `<li>`), the emitted
segment is the tag-anchored `li[2]`. -/
theorem generateXPath_li2 (root parent child : DomTree) (pre : List Nat) (i : Nat)
    (hparent : nodeAt root pre = some parent)
    (hchild : parent.children.get? i = some child)
    (htag : child.tag = "li")
    (hcount : ((parent.children.take i).filter (fun s => s.tag = "li")).length = 1) :
    ∃ parts, xpathPartsFrom root (pre ++ [i]) = some parts ∧ "li[2]" ∈ parts ∧
      generateXPath root (pre ++ [i]) =
        some ("//" ++ String.intercalate "/" (pathSegment root.tag 1 :: parts)) := by
  obtain ⟨parts0, hp0, hs⟩ := xpathPartsFrom_valid hparent
  have hseg : pathSegment child.tag (sameTagIndex parent.children i child.tag) = "li[2]" := by
    rw [htag]
    unfold sameTagIndex
    rw [hcount]
    rfl
  have hfull : xpathPartsFrom root (pre ++ [i]) = some (parts0 ++ ["li[2]"]) := by
    rw [hs [i], xpathPartsFrom_cons, hchild, Option.some_bind, xpathPartsFrom_nil, hseg]
    rfl
  exact ⟨parts0 ++ ["li[2]"], hfull, by simp,
    by rw [generateXPath, hfull]; rfl⟩

/-- A list item node. -/
def liNode : DomTree := .node "li" []

/-- A list with two `<li>` children. -/
def ulNode : DomTree := .node "ul" [liNode, liNode]

/-- A document whose root holds one `<ul>` with two `<li>` children. -/
def divNode : DomTree := .node "div" [ulNode]

theorem generateXPath_li2_witness :
    ∃ parts, xpathPartsFrom divNode ([0] ++ [1]) = some parts ∧ "li[2]" ∈ parts ∧
      generateXPath divNode ([0] ++ [1]) =
        some ("//" ++ String.intercalate "/" (pathSegment divNode.tag 1 :: parts)) :=
  generateXPath_li2 divNode ulNode liNode [0] 1 rfl rfl rfl rfl

theorem chainStrategies_foldl (rest : List LocatorStrategy) (init : PWLocator) :
    chainStrategies (rest.foldl PWLocator.orElse init) = chainStrategies init ++ rest := by
  induction rest generalizing init with
  | nil => simp
  | cons a t ih =>
    rw [List.foldl_cons, ih (PWLocator.orElse init a)]
    simp [chainStrategies]

/-- C8: composite-locator construction fails exactly on the empty strategy
list; on a non-empty list it succeeds, and the resulting fallback chain is,
from index 0 on, precisely the input strategies stably sorted ascending by
priority. -/
theorem createSelfHealingLocator_spec (strategies : List LocatorStrategy) :
    ((createSelfHealingLocator strategies).isOk = true ↔ strategies ≠ []) ∧
      ∀ loc, createSelfHealingLocator strategies = .ok loc →
        chainStrategies loc = sortByPriority strategies ∧
        List.Perm (chainStrategies loc) strategies ∧
        (chainStrategies loc).Sorted priorityLE := by
  by_cases h : strategies = []
  · subst h
    exact ⟨by simp [createSelfHealingLocator, Except.isOk, Except.toBool],
      fun loc hloc => by simp [createSelfHealingLocator] at hloc⟩
  · have hempty : strategies.isEmpty = false := by simpa [List.isEmpty_iff] using h
    cases hsort : sortByPriority strategies with
    | nil =>
      exfalso
      have hlen : (sortByPriority strategies).length = strategies.length :=
        List.length_insertionSort priorityLE strategies
      rw [hsort] at hlen
      exact h (List.length_eq_zero.mp hlen.symm)
    | cons first rest =>
      have hrun : createSelfHealingLocator strategies =
          .ok (rest.foldl PWLocator.orElse (PWLocator.strat first)) := by
        simp [createSelfHealingLocator, hempty, hsort]
      refine ⟨by simp [hrun, Except.isOk, Except.toBool, h], fun loc hloc => ?_⟩
      rw [hrun] at hloc
      injection hloc with hloc
      subst hloc
      have hchain : chainStrategies (rest.foldl PWLocator.orElse (PWLocator.strat first)) =
          first :: rest := by
        rw [chainStrategies_foldl]
        rfl
      refine ⟨hchain, ?_, ?_⟩
      · rw [hchain, ← hsort]
        exact List.perm_insertionSort priorityLE strategies
      · rw [hchain, ← hsort]
        exact List.sorted_insertionSort priorityLE strategies

end LocatorPro
